import Mathlib

/-!
Verification of the mysql-proxy core (`src/main.rs`).

This file gives a shallow embedding of the value-mapping and dispatch logic of
the proxy: the JSON value model (`serde_json.Value`), the relational value
model (`mysql_async.Value`), the parameter encoder (`convert_params`), the row
decoder (`QueryRow.serialize`), the untagged request parsing (`Query`), the
executor (`_query`), the error reporter (`error`) and the HTTP handler
(`query`).  Machine integers are modelled as `Nat`/`Int`; IEEE floats are kept
symbolic (identified by their bit pattern or by the integer they were cast
from), since no theorem below depends on floating-point arithmetic.
-/

set_option linter.unusedVariables false

namespace MysqlProxy

/-- Model of an IEEE `f32` value, identified by its bit pattern.  No
floating-point arithmetic is needed below, so the payload stays symbolic. -/
structure F32 where
  bits : Nat
deriving DecidableEq, Repr

/-- Model of an IEEE `f64` value.  A float obtained by a Rust integer cast
(`n as f64`, as performed by `serde_json`'s `as_f64`) or by widening an `f32`
is kept symbolic as the cast applied to its source. -/
inductive F64 where
  | ofU64 (n : Nat)
  | ofI64 (i : Int)
  | ofF32 (f : F32)
  | lit (bits : Nat)
deriving DecidableEq, Repr

namespace serde_json

/-- Model of `serde_json`'s number representation `N`: an `u64` (used for all
non-negative integers), a negative `i64`, or a finite `f64`. -/
inductive Number where
  | PosInt (n : Nat)
  | NegInt (i : Int)
  | Float (f : F64)
deriving DecidableEq, Repr

/-- Model of `serde_json::Number::as_f64`: every stored number has a
floating-point image (`u64 as f64`, `i64 as f64`, or the float itself). -/
def Number.as_f64 : Number → Option F64
  | .PosInt n => some (F64.ofU64 n)
  | .NegInt i => some (F64.ofI64 i)
  | .Float f => some f

/-- Model of `serde_json::Number::as_u64`: only non-negative integers have an
unsigned image; negative integers and floats do not. -/
def Number.as_u64 : Number → Option Nat
  | .PosInt n => some n
  | .NegInt _ => none
  | .Float _ => none

/-- Model of `serde_json::Value`. -/
inductive Value where
  | null
  | bool (b : Bool)
  | num (n : Number)
  | str (s : String)
  | arr (elems : List Value)
  | obj (fields : List (String × Value))

end serde_json

/-- Unicode replacement character U+FFFD, emitted by lossy UTF-8 decoding for
invalid byte sequences. -/
def repl : Char := Char.ofNat 0xFFFD

/-- UTF-8 encoding of one Unicode code point given as a `Nat`. -/
def encodeScalar (n : Nat) : List Nat :=
  if n < 0x80 then [n]
  else if n < 0x800 then [0xC0 + n / 64, 0x80 + n % 64]
  else if n < 0x10000 then [0xE0 + n / 4096, 0x80 + n / 64 % 64, 0x80 + n % 64]
  else [0xF0 + n / 262144, 0x80 + n / 4096 % 64, 0x80 + n / 64 % 64, 0x80 + n % 64]

/-- UTF-8 encoding of one Unicode scalar value (the bytes Rust's
`String::into_bytes` produces for one `char`). -/
def encodeChar (c : Char) : List Nat :=
  encodeScalar c.toNat

/-- UTF-8 encoding of a character sequence. -/
def encodeChars : List Char → List Nat
  | [] => []
  | c :: cs => encodeChar c ++ encodeChars cs

/-- UTF-8 bytes of a string: models Rust's `String::into_bytes` (the byte
representation `mysql_async::Value::from(String)` stores). -/
def utf8Encode (s : String) : List Nat :=
  encodeChars s.data

/-- One step of lossy UTF-8 decoding: given the lead byte `b` and the bytes
after it, produce the decoded character and the bytes left over.  A valid
UTF-8 sequence (shortest form, no surrogates, at most U+10FFFF) yields its
scalar value; anything else yields U+FFFD. -/
def utf8Step (b : Nat) (bs : List Nat) : Char × List Nat :=
  if b < 0x80 then (Char.ofNat b, bs)
  else if b < 0xC2 then (repl, bs)
  else if b < 0xE0 then
    match bs with
    | b1 :: bs1 =>
      if 0x80 ≤ b1 ∧ b1 < 0xC0 then
        (Char.ofNat ((b - 0xC0) * 64 + (b1 - 0x80)), bs1)
      else (repl, bs)
    | [] => (repl, [])
  else if b < 0xF0 then
    match bs with
    | b1 :: b2 :: bs2 =>
      if (0x80 ≤ b1 ∧ b1 < 0xC0) ∧ (0x80 ≤ b2 ∧ b2 < 0xC0) then
        let n := (b - 0xE0) * 4096 + (b1 - 0x80) * 64 + (b2 - 0x80)
        if 0x800 ≤ n ∧ (n < 0xD800 ∨ 0xDFFF < n) then (Char.ofNat n, bs2)
        else (repl, bs2)
      else (repl, bs)
    | _ => (repl, [])
  else if b < 0xF5 then
    match bs with
    | b1 :: b2 :: b3 :: bs3 =>
      if (0x80 ≤ b1 ∧ b1 < 0xC0) ∧ (0x80 ≤ b2 ∧ b2 < 0xC0) ∧ (0x80 ≤ b3 ∧ b3 < 0xC0) then
        let n := (b - 0xF0) * 262144 + (b1 - 0x80) * 4096 + (b2 - 0x80) * 64 + (b3 - 0x80)
        if 0x10000 ≤ n ∧ n < 0x110000 then (Char.ofNat n, bs3)
        else (repl, bs3)
      else (repl, bs)
    | _ => (repl, [])
  else (repl, bs)

/-- Decoding one scalar consumes a (possibly empty) front part of the
remaining bytes, never more. -/
theorem utf8Step_length (b : Nat) (bs : List Nat) :
    (utf8Step b bs).2.length ≤ bs.length := by
  unfold utf8Step
  dsimp only
  repeat' split
  all_goals simp_all
  all_goals omega

/-- Lossy UTF-8 decoding of a byte sequence into characters, one scalar at a
time via `utf8Step`. -/
def utf8DecodeAux (l : List Nat) : List Char :=
  match l with
  | [] => []
  | b :: bs => (utf8Step b bs).1 :: utf8DecodeAux (utf8Step b bs).2
termination_by l.length
decreasing_by
  exact Nat.lt_succ_of_le (utf8Step_length b bs)

/-- Model of Rust's `String::from_utf8_lossy`: total, never rejects input. -/
def utf8Lossy (bs : List Nat) : String :=
  ⟨utf8DecodeAux bs⟩

namespace mysql_async

/-- Model of `mysql_async::Value`, the relational value model: the eight
variants NULL, Bytes, Int (i64), UInt (u64), Float (f32), Double (f64),
Date(year, month, day, hour, minute, second, micro) and
Time(negative, days, hours, minutes, seconds, micro). -/
inductive Value where
  | NULL
  | Bytes (bs : List Nat)
  | Int (i : Int)
  | UInt (u : Nat)
  | Float (f : F32)
  | Double (f : F64)
  | Date (y mo d h mi s : Nat) (u : Nat)
  | Time (neg : Bool) (d h mi s : Nat) (u : Nat)
deriving DecidableEq, Repr

/-- Model of `mysql_async::Params` as used by the proxy (positional only). -/
inductive Params where
  | Positional (vs : List Value)
deriving DecidableEq, Repr

end mysql_async

/-- The number arm of `convert_params` (`src/main.rs` lines 58-71), abstracted
over the two probe results it inspects: first `as_f64`, then — twice, exactly
as written in the source — `as_u64`; there is no `as_i64` probe. -/
def numberChain (fo : Option F64) (uo : Option Nat) : mysql_async.Value :=
  match fo with
  | some f => .Double f
  | none =>
    match uo with
    | some u => .UInt u
    | none =>
      match uo with
      | some i => .UInt i
      | none => .NULL

/-- The per-parameter closure of `convert_params`: `Bool` binds through
`mysql_async::Value::from(bool)` (which is `Int(0)`/`Int(1)`, MySQL's
representation of a boolean), `String` through `Value::from(String)`
(`Bytes` of the UTF-8 bytes), numbers through the `as_f64`/`as_u64` chain,
and every other JSON shape degrades to `NULL`. -/
def convertParam : serde_json.Value → mysql_async.Value
  | .bool b => .Int (if b then 1 else 0)
  | .str s => .Bytes (utf8Encode s)
  | .num n => numberChain n.as_f64 n.as_u64
  | _ => .NULL

/-- Model of `convert_params` (`src/main.rs` lines 54-74). -/
def convert_params (params : List serde_json.Value) : mysql_async.Params :=
  .Positional (params.map convertParam)

/-- The `format!("{}-{}-{} {}:{}:{}.{}", y, m, d, h, i, s, u)` string of the
`Date` arm of `QueryRow::serialize`: decimal `Display` of each component,
with no zero-padding. -/
def formatDate (y mo d h mi s u : Nat) : String :=
  toString y ++ "-" ++ toString mo ++ "-" ++ toString d ++ " " ++ toString h
    ++ ":" ++ toString mi ++ ":" ++ toString s ++ "." ++ toString u

/-- Model of `serde_json::Number::from(i64)`: non-negative values are stored
as `PosInt`, negative ones as `NegInt`. -/
def intToNumber (i : Int) : serde_json.Number :=
  if 0 ≤ i then .PosInt i.toNat else .NegInt i

/-- The per-cell decoding performed by the match in `QueryRow::serialize`
(`src/main.rs` lines 37-47) on the result of `Row::as_ref` (an optional
relational value): `Bytes` through `String::from_utf8_lossy`, `Date` through
the unpadded format string, `Double`/`Float`/`Int`/`UInt` as JSON numbers
(an `f32` is serialized by widening to `f64`), and everything else — the
commented-out `Time` variant, `NULL`, and an absent cell — through the
wildcard arm to JSON null. -/
def decodeCell : Option mysql_async.Value → serde_json.Value
  | some (.Bytes a) => .str (utf8Lossy a)
  | some (.Date y mo d h mi s u) => .str (formatDate y mo d h mi s u)
  | some (.Double f) => .num (.Float f)
  | some (.Float f) => .num (.Float (F64.ofF32 f))
  | some (.Int f) => .num (intToNumber f)
  | some (.UInt f) => .num (.PosInt f)
  | _ => .null

/-- Model of `mysql_async::Row`: named columns plus one optional value per
column (`Row::as_ref` yields `None` for a taken or out-of-range cell). -/
structure Row where
  columns : List String
  values : List (Option mysql_async.Value)
deriving DecidableEq, Repr

/-- Model of `Row::as_ref(index)`. -/
def Row.as_ref (r : Row) (i : Nat) : Option mysql_async.Value :=
  r.values.getD i none

/-- Model of `QueryRow::serialize` (`src/main.rs` lines 32-52): one map entry
per column, in column order, keyed by the column name, valued by the decoded
cell. -/
def QueryRow.serialize (r : Row) : List (String × serde_json.Value) :=
  r.columns.enum.map fun ic => (ic.2, decodeCell (r.as_ref ic.1))

/-- Model of the `Query` request union (`src/main.rs` lines 17-22). -/
inductive Query where
  | Simple (q : String)
  | Prepared (q : String) (params : List serde_json.Value)

/-- First attempt of the untagged deserializer: the `Simple(String)` variant
matches exactly a JSON string. -/
def parseSimple : serde_json.Value → Option Query
  | .str s => some (.Simple s)
  | _ => none

/-- Second attempt of the untagged deserializer: the
`Prepared((String, Vec<Value>))` variant matches exactly a 2-element JSON
array whose first element is a string and whose second is an array. -/
def parsePrepared : serde_json.Value → Option Query
  | .arr [.str s, .arr ps] => some (.Prepared s ps)
  | _ => none

/-- Model of `serde`'s untagged deserialization of `Query`: the variants are
attempted in declaration order. -/
def parseQuery (j : serde_json.Value) : Option Query :=
  match parseSimple j with
  | some q => some q
  | none => parsePrepared j

/-- Model of the `QueryResult` response union (`src/main.rs` lines 76-81). -/
inductive QueryResult where
  | Id (oid : Option Nat)
  | Rows (rows : List Row)
deriving DecidableEq, Repr

/-- Model of `fn error` (`src/main.rs` lines 83-86): the first component is
the line passed to the `error!` log macro (`"{prefix}: {message}"`), the
second is the returned string (`e.to_string()`), handed back to the caller. -/
def error (pfx : String) (e : String) : String × String :=
  (pfx ++ ": " ++ e, e)

/-- Model of an acquired `mysql_async` connection: each field is the outcome
of the one statement execution the proxy performs on it.  `query_iter` and
`exec_iter` model `query_iter(..)`/`exec_iter(..)` composed with
`last_insert_id()`; `query` and `exec` model the row-collecting calls. -/
structure Conn where
  query_iter : String → Except String (Option Nat)
  exec_iter : String → mysql_async.Params → Except String (Option Nat)
  query : String → Except String (List Row)
  exec : String → mysql_async.Params → Except String (List Row)

/-- Model of `_query` (`src/main.rs` lines 88-102).  The pool argument is the
outcome of `POOL.get_conn()`; the second component of the result collects the
log lines emitted through `error`. -/
def _query (pool : Except String Conn) (q : Query) (get_id : Bool) :
    Except String QueryResult × List String :=
  match pool with
  | .error e =>
    let r := error "MySQL connection error" e
    (.error r.2, [r.1])
  | .ok conn =>
    if get_id then
      match q with
      | .Simple s =>
        match conn.query_iter s with
        | .error e => let r := error "MySQL query error" e; (.error r.2, [r.1])
        | .ok oid => (.ok (.Id oid), [])
      | .Prepared s p =>
        match conn.exec_iter s (convert_params p) with
        | .error e => let r := error "MySQL query error" e; (.error r.2, [r.1])
        | .ok oid => (.ok (.Id oid), [])
    else
      match q with
      | .Simple s =>
        match conn.query s with
        | .error e => let r := error "MySQL query error" e; (.error r.2, [r.1])
        | .ok rows => (.ok (.Rows rows), [])
      | .Prepared s p =>
        match conn.exec s (convert_params p) with
        | .error e => let r := error "MySQL query error" e; (.error r.2, [r.1])
        | .ok rows => (.ok (.Rows rows), [])

/-- Model of `CallParams` (`src/main.rs` lines 104-108): the optional boolean
query-string parameter renamed from `return`. -/
structure CallParams where
  _return : Option Bool
deriving DecidableEq, Repr

/-- An HTTP reply body: a JSON-serialized `QueryResult` or a plain-text
error message. -/
inductive Reply where
  | json (v : QueryResult)
  | text (s : String)
deriving DecidableEq, Repr

/-- Model of the handler `query` (`src/main.rs` lines 110-115): status 200
with the JSON result on success, status 500 with the plain-text message on
failure.  The log lines of `_query` are carried along. -/
def query (pool : Except String Conn) (q : Query) (params : CallParams) :
    (Nat × Reply) × List String :=
  match _query pool q (params._return == some true) with
  | (.ok v, logs) => ((200, .json v), logs)
  | (.error e, logs) => ((500, .text e), logs)

/-! Helper lemmas about the UTF-8 model. -/

theorem utf8Step_encodeScalar (n : Nat)
    (hv : n < 0xD800 ∨ (0xDFFF < n ∧ n < 0x110000)) (rest : List Nat) :
    ∃ b bs, encodeScalar n ++ rest = b :: bs ∧ utf8Step b bs = (Char.ofNat n, rest) := by
  have hmax : n < 0x110000 := by omega
  by_cases h1 : n < 0x80
  · refine ⟨n, rest, by simp [encodeScalar, h1], ?_⟩
    unfold utf8Step
    rw [if_pos h1]
  by_cases h2 : n < 0x800
  · have ha : ¬ (0xC0 + n / 64 < 0x80) := by omega
    have hb : ¬ (0xC0 + n / 64 < 0xC2) := by omega
    have hc : 0xC0 + n / 64 < 0xE0 := by omega
    have hd : 0x80 + n % 64 < 0xC0 := by omega
    have hval : (0xC0 + n / 64 - 0xC0) * 64 + (0x80 + n % 64 - 0x80) = n := by omega
    refine ⟨0xC0 + n / 64, (0x80 + n % 64) :: rest, by simp [encodeScalar, h1, h2], ?_⟩
    unfold utf8Step
    rw [if_neg ha, if_neg hb, if_pos hc]
    dsimp only
    rw [if_pos ⟨Nat.le_add_right _ _, hd⟩, hval]
  by_cases h3 : n < 0x10000
  · have ha : ¬ (0xE0 + n / 4096 < 0x80) := by omega
    have hb : ¬ (0xE0 + n / 4096 < 0xC2) := by omega
    have hc : ¬ (0xE0 + n / 4096 < 0xE0) := by omega
    have hd : 0xE0 + n / 4096 < 0xF0 := by omega
    have he : 0x80 + n / 64 % 64 < 0xC0 := by omega
    have hf : 0x80 + n % 64 < 0xC0 := by omega
    have hval : (0xE0 + n / 4096 - 0xE0) * 4096 + (0x80 + n / 64 % 64 - 0x80) * 64
        + (0x80 + n % 64 - 0x80) = n := by omega
    have hlo : 0x800 ≤ n := by omega
    have hsur : n < 0xD800 ∨ 0xDFFF < n := by omega
    refine ⟨0xE0 + n / 4096, (0x80 + n / 64 % 64) :: (0x80 + n % 64) :: rest,
      by simp [encodeScalar, h1, h2, h3], ?_⟩
    unfold utf8Step
    rw [if_neg ha, if_neg hb, if_neg hc, if_pos hd]
    dsimp only
    rw [if_pos ⟨⟨Nat.le_add_right _ _, he⟩, ⟨Nat.le_add_right _ _, hf⟩⟩, hval,
      if_pos ⟨hlo, hsur⟩]
  · have ha : ¬ (0xF0 + n / 262144 < 0x80) := by omega
    have hb : ¬ (0xF0 + n / 262144 < 0xC2) := by omega
    have hc : ¬ (0xF0 + n / 262144 < 0xE0) := by omega
    have hd : ¬ (0xF0 + n / 262144 < 0xF0) := by omega
    have he : 0xF0 + n / 262144 < 0xF5 := by omega
    have hf : 0x80 + n / 4096 % 64 < 0xC0 := by omega
    have hg : 0x80 + n / 64 % 64 < 0xC0 := by omega
    have hh : 0x80 + n % 64 < 0xC0 := by omega
    have hval : (0xF0 + n / 262144 - 0xF0) * 262144 + (0x80 + n / 4096 % 64 - 0x80) * 4096
        + (0x80 + n / 64 % 64 - 0x80) * 64 + (0x80 + n % 64 - 0x80) = n := by omega
    have hlo : 0x10000 ≤ n := by omega
    refine ⟨0xF0 + n / 262144,
      (0x80 + n / 4096 % 64) :: (0x80 + n / 64 % 64) :: (0x80 + n % 64) :: rest,
      by simp [encodeScalar, h1, h2, h3], ?_⟩
    unfold utf8Step
    rw [if_neg ha, if_neg hb, if_neg hc, if_neg hd, if_pos he]
    dsimp only
    rw [if_pos ⟨⟨Nat.le_add_right _ _, hf⟩, ⟨Nat.le_add_right _ _, hg⟩,
      ⟨Nat.le_add_right _ _, hh⟩⟩, hval, if_pos ⟨hlo, hmax⟩]

theorem utf8DecodeAux_encodeScalar (n : Nat)
    (hv : n < 0xD800 ∨ (0xDFFF < n ∧ n < 0x110000)) (rest : List Nat) :
    utf8DecodeAux (encodeScalar n ++ rest) = Char.ofNat n :: utf8DecodeAux rest := by
  obtain ⟨b, bs, heq, hstep⟩ := utf8Step_encodeScalar n hv rest
  rw [heq]
  simp only [utf8DecodeAux]
  rw [hstep]

theorem utf8DecodeAux_encodeChar (c : Char) (rest : List Nat) :
    utf8DecodeAux (encodeChar c ++ rest) = c :: utf8DecodeAux rest := by
  have hv : c.toNat < 0xD800 ∨ (0xDFFF < c.toNat ∧ c.toNat < 0x110000) := c.valid
  rw [encodeChar, utf8DecodeAux_encodeScalar c.toNat hv rest, Char.ofNat_toNat]

theorem utf8DecodeAux_encodeChars (cs : List Char) :
    utf8DecodeAux (encodeChars cs) = cs := by
  induction cs with
  | nil => simp [encodeChars, utf8DecodeAux]
  | cons c cs ih => rw [encodeChars, utf8DecodeAux_encodeChar, ih]

/-- Lossy UTF-8 decoding is a left inverse of UTF-8 encoding: re-reading the
byte representation of any (necessarily valid-Unicode) string restores it. -/
theorem utf8Lossy_utf8Encode (s : String) : utf8Lossy (utf8Encode s) = s := by
  cases s with
  | mk data => rw [utf8Encode, utf8Lossy, utf8DecodeAux_encodeChars]

/-! Helper lemmas about the executor and the row serializer. -/

/-- A JSON value is a scalar when it is neither an array nor an object. -/
def isScalar : serde_json.Value → Bool
  | .arr _ => false
  | .obj _ => false
  | _ => true

theorem enumFrom_map_snd {α : Type _} (k : Nat) (l : List α) :
    (List.enumFrom k l).map (fun ic => ic.2) = l := by
  induction l generalizing k with
  | nil => simp
  | cons a t ih => simp [List.enumFrom, ih]

theorem serialize_map_fst (r : Row) :
    (QueryRow.serialize r).map Prod.fst = r.columns := by
  unfold QueryRow.serialize
  rw [List.map_map]
  rw [show (Prod.fst ∘ fun ic : Nat × String => (ic.2, decodeCell (r.as_ref ic.1)))
      = (fun ic : Nat × String => ic.2) from rfl, List.enum]
  exact enumFrom_map_snd 0 r.columns

theorem decodeCell_isScalar (cell : Option mysql_async.Value) :
    isScalar (decodeCell cell) = true := by
  rcases cell with _ | v
  · rfl
  · cases v <;> rfl

theorem _query_false_rows (pool : Except String Conn) (q : Query) (r : QueryResult)
    (logs : List String) (h : _query pool q false = (.ok r, logs)) :
    ∃ rows, r = .Rows rows := by
  cases pool with
  | error e => simp [_query] at h
  | ok conn =>
    cases q with
    | Simple s =>
      cases hq : conn.query s with
      | error e => simp [_query, hq] at h
      | ok rows => simp [_query, hq] at h; exact ⟨rows, h.1.symm⟩
    | Prepared s p =>
      cases hq : conn.exec s (convert_params p) with
      | error e => simp [_query, hq] at h
      | ok rows => simp [_query, hq] at h; exact ⟨rows, h.1.symm⟩

theorem _query_true_id (pool : Except String Conn) (q : Query) (r : QueryResult)
    (logs : List String) (h : _query pool q true = (.ok r, logs)) :
    ∃ oid, r = .Id oid := by
  cases pool with
  | error e => simp [_query] at h
  | ok conn =>
    cases q with
    | Simple s =>
      cases hq : conn.query_iter s with
      | error e => simp [_query, hq] at h
      | ok oid => simp [_query, hq] at h; exact ⟨oid, h.1.symm⟩
    | Prepared s p =>
      cases hq : conn.exec_iter s (convert_params p) with
      | error e => simp [_query, hq] at h
      | ok oid => simp [_query, hq] at h; exact ⟨oid, h.1.symm⟩

/-- A concrete connection used to instantiate hypotheses of the claim
theorems at closed inputs. -/
def connW : Conn where
  query_iter _ := .ok (some 42)
  exec_iter _ _ := .ok none
  query _ := .ok []
  exec _ _ := .ok [⟨["x"], [some (.Int 1)]⟩]

/-- On a failed execution the log line is always the fixed failure-class
prefix, a separator, and exactly the message that is also handed back. -/
theorem _query_error_log (pool : Except String Conn) (q : Query) (gid : Bool)
    (m : String) (logs : List String) (h : _query pool q gid = (.error m, logs)) :
    logs = ["MySQL connection error" ++ ": " ++ m]
      ∨ logs = ["MySQL query error" ++ ": " ++ m] := by
  cases pool with
  | error e =>
    simp [_query, error] at h
    left
    simp [← h.2, h.1]
  | ok conn =>
    cases gid with
    | true =>
      cases q with
      | Simple s =>
        cases hq : conn.query_iter s with
        | error e => simp [_query, error, hq] at h; right; simp [← h.2, h.1]
        | ok oid => simp [_query, hq] at h
      | Prepared s p =>
        cases hq : conn.exec_iter s (convert_params p) with
        | error e => simp [_query, error, hq] at h; right; simp [← h.2, h.1]
        | ok oid => simp [_query, hq] at h
    | false =>
      cases q with
      | Simple s =>
        cases hq : conn.query s with
        | error e => simp [_query, error, hq] at h; right; simp [← h.2, h.1]
        | ok rows => simp [_query, hq] at h
      | Prepared s p =>
        cases hq : conn.exec s (convert_params p) with
        | error e => simp [_query, error, hq] at h; right; simp [← h.2, h.1]
        | ok rows => simp [_query, hq] at h

/-! The claims. -/

/-- Claim C1: for every JSON number parameter the encoder first attempts the
floating-point probe (`as_f64`) and only on its failure falls back to the
unsigned-integer probe; the fallback consults `as_u64` (twice, per the
duplicated check embodied in `numberChain`), and no input ever reaches a
distinct signed-integer (`Int`) encoding. -/
theorem c1_number_encoding_order (fo : Option F64) (uo : Option Nat) :
    (∀ f, fo = some f → numberChain fo uo = .Double f) ∧
    (fo = none → ∀ u, uo = some u → numberChain fo uo = .UInt u) ∧
    (fo = none → uo = none → numberChain fo uo = .NULL) ∧
    (∀ i, numberChain fo uo ≠ .Int i) ∧
    (∀ n : serde_json.Number, convertParam (.num n) = numberChain n.as_f64 n.as_u64) := by
  cases fo <;> cases uo <;>
    simp [numberChain, convertParam]

theorem c1_number_encoding_order_witness :
    numberChain (some (F64.ofU64 2)) none = .Double (F64.ofU64 2) ∧
    numberChain none (some 3) = .UInt 3 ∧
    numberChain none none = .NULL :=
  ⟨(c1_number_encoding_order (some (F64.ofU64 2)) none).1 (F64.ofU64 2) rfl,
   (c1_number_encoding_order none (some 3)).2.1 rfl 3 rfl,
   (c1_number_encoding_order none none).2.2.1 rfl rfl⟩

/-- Claim C2: on every successful execution the result variant is chosen by
the mode flag alone — `get_id = false` always yields `Rows` (also for an
empty row list) and `get_id = true` always yields `Id`, for both statement
shapes; the generated identifier of the store is passed through unchanged,
so the `Id` payload is `none` exactly when the store reported none. -/
theorem c2_variant_by_mode (pool : Except String Conn) (conn : Conn) (q : Query)
    (r : QueryResult) (logs : List String) :
    (_query pool q false = (.ok r, logs) → ∃ rows, r = .Rows rows) ∧
    (_query pool q true = (.ok r, logs) → ∃ oid, r = .Id oid) ∧
    (∀ s oid, conn.query_iter s = .ok oid →
      _query (.ok conn) (.Simple s) true = (.ok (.Id oid), [])) ∧
    (∀ s p oid, conn.exec_iter s (convert_params p) = .ok oid →
      _query (.ok conn) (.Prepared s p) true = (.ok (.Id oid), [])) ∧
    (∀ s rows, conn.query s = .ok rows →
      _query (.ok conn) (.Simple s) false = (.ok (.Rows rows), [])) ∧
    (∀ s p rows, conn.exec s (convert_params p) = .ok rows →
      _query (.ok conn) (.Prepared s p) false = (.ok (.Rows rows), [])) := by
  refine ⟨fun h => _query_false_rows pool q r logs h,
    fun h => _query_true_id pool q r logs h, ?_, ?_, ?_, ?_⟩
  · intro s oid hp
    simp [_query, hp]
  · intro s p oid hp
    simp [_query, hp]
  · intro s rows hp
    simp [_query, hp]
  · intro s p rows hp
    simp [_query, hp]

theorem c2_variant_by_mode_witness :
    (∃ oid, QueryResult.Id (some 42) = .Id oid) ∧
    (∃ rows, QueryResult.Rows [] = .Rows rows) ∧
    _query (.ok connW) (.Simple "INSERT INTO t(x) VALUES (1)") true
      = (.ok (.Id (some 42)), []) ∧
    _query (.ok connW) (.Simple "SELECT 1") false = (.ok (.Rows []), []) :=
  ⟨(c2_variant_by_mode (.ok connW) connW (.Simple "INSERT INTO t(x) VALUES (1)")
      (.Id (some 42)) []).2.1 rfl,
   (c2_variant_by_mode (.ok connW) connW (.Simple "SELECT 1") (.Rows []) []).1 rfl,
   (c2_variant_by_mode (.ok connW) connW (.Simple "INSERT INTO t(x) VALUES (1)")
      (.Id (some 42)) []).2.2.1 "INSERT INTO t(x) VALUES (1)" (some 42) rfl,
   (c2_variant_by_mode (.ok connW) connW (.Simple "SELECT 1") (.Rows []) []).2.2.2.2.1
      "SELECT 1" [] rfl⟩

/-- Claim C3: row decoding is total — the serialized row has one entry per
column, keyed by the column names in column order, every cell (of any
relational kind, or absent) decodes to a JSON scalar, and unsupported kinds
such as time-of-day (`Time`), `NULL`, and absent cells decode to JSON
null. -/
theorem c3_decode_total_ordered (r : Row) :
    ((QueryRow.serialize r).map Prod.fst = r.columns) ∧
    ((QueryRow.serialize r).length = r.columns.length) ∧
    (∀ cell, isScalar (decodeCell cell) = true) ∧
    (∀ neg d h mi s u, decodeCell (some (.Time neg d h mi s u)) = .null) ∧
    (decodeCell (some .NULL) = .null) ∧
    (decodeCell none = .null) := by
  refine ⟨serialize_map_fst r, ?_, decodeCell_isScalar, fun _ _ _ _ _ _ => rfl, rfl, rfl⟩
  simp [QueryRow.serialize]

/-- Claim C4: a byte-string cell decodes through lossy UTF-8 decoding
(total, replacing invalid sequences — e.g. the stray byte 0xFF — with
U+FFFD, never rejecting), and a `Date(y,mo,d,h,mi,s,u)` cell decodes to the
string `"{y}-{mo}-{d} {h}:{mi}:{s}.{u}"` whose components are plain decimal
renderings with no zero-padding, as the concrete instance
`"2024-3-5 9:1:2.0"` exhibits. -/
theorem c4_bytes_and_date_decoding :
    (∀ bs, decodeCell (some (.Bytes bs)) = .str (utf8Lossy bs)) ∧
    (utf8Lossy [0xFF, 0x41] = ⟨[repl, 'A']⟩) ∧
    (∀ y mo d h mi s u, decodeCell (some (.Date y mo d h mi s u)) = .str
      (toString y ++ "-" ++ toString mo ++ "-" ++ toString d ++ " " ++ toString h
        ++ ":" ++ toString mi ++ ":" ++ toString s ++ "." ++ toString u)) ∧
    (decodeCell (some (.Date 2024 3 5 9 1 2 0)) = .str "2024-3-5 9:1:2.0") := by
  refine ⟨fun bs => rfl, ?_, fun y mo d h mi s u => rfl, ?_⟩
  · have h1 : utf8Step 0xFF [0x41] = (repl, [0x41]) := by norm_num [utf8Step]
    have h2 : utf8Step 0x41 [] = (Char.ofNat 0x41, []) := by norm_num [utf8Step]
    rw [utf8Lossy]
    rw [utf8DecodeAux, h1]
    rw [utf8DecodeAux, h2]
    rw [utf8DecodeAux]
  · rfl

/-- Claim C5: parameter encoding is total and never rejects: JSON null,
arrays and objects all encode to relational `NULL`, a boolean encodes to the
relational boolean (`Int 1`/`Int 0`, MySQL's boolean representation), a
string to a relational byte-string, and a parameter list of any length
encodes to a positional bind list of the same length. -/
theorem c5_encode_total :
    (convertParam .null = .NULL) ∧
    (∀ elems, convertParam (.arr elems) = .NULL) ∧
    (∀ fields, convertParam (.obj fields) = .NULL) ∧
    (∀ b, convertParam (.bool b) = .Int (if b then 1 else 0)) ∧
    (∀ s, convertParam (.str s) = .Bytes (utf8Encode s)) ∧
    (∀ ps, ∃ vs, convert_params ps = .Positional vs ∧ vs.length = ps.length) := by
  refine ⟨rfl, fun _ => rfl, fun _ => rfl, fun _ => rfl, fun _ => rfl, fun ps => ?_⟩
  exact ⟨ps.map convertParam, rfl, ps.length_map convertParam⟩

/-- Claim C6: the execution mode is `wantId` exactly when the optional
boolean `return` parameter is present with value `true`; absence or any other
boolean value selects row-set mode, as witnessed by the shape of the result
of every successful handler run. -/
theorem c6_return_selects_mode (pool : Except String Conn) (q : Query)
    (p : CallParams) (r : QueryResult) (logs : List String) :
    ((p._return == some true) = true ↔ p._return = some true) ∧
    (query pool q p = ((200, .json r), logs) →
      (p._return = some true → ∃ oid, r = .Id oid) ∧
      (p._return ≠ some true → ∃ rows, r = .Rows rows)) := by
  constructor
  · simp
  · intro h
    rcases hq : _query pool q (p._return == some true) with ⟨res, lg⟩
    unfold query at h
    rw [hq] at h
    cases res with
    | error e => simp at h
    | ok v =>
      simp at h
      obtain ⟨hv, hl⟩ := h
      constructor
      · intro htrue
        have hflag : (p._return == some true) = true := by simp [htrue]
        rw [hflag] at hq
        obtain ⟨oid, hoid⟩ := _query_true_id pool q v lg hq
        exact ⟨oid, by rw [← hv, hoid]⟩
      · intro hfalse
        have hflag : (p._return == some true) = false := by simp [hfalse]
        rw [hflag] at hq
        obtain ⟨rows, hrows⟩ := _query_false_rows pool q v lg hq
        exact ⟨rows, by rw [← hv, hrows]⟩

theorem c6_return_selects_mode_witness :
    (∃ oid, QueryResult.Id (some 42) = .Id oid) ∧
    (∃ rows, QueryResult.Rows [] = .Rows rows) ∧
    (∃ rows, QueryResult.Rows [] = .Rows rows) :=
  ⟨((c6_return_selects_mode (.ok connW) (.Simple "i") ⟨some true⟩
      (.Id (some 42)) []).2 rfl).1 rfl,
   ((c6_return_selects_mode (.ok connW) (.Simple "s") ⟨some false⟩
      (.Rows []) []).2 rfl).2 (by decide),
   ((c6_return_selects_mode (.ok connW) (.Simple "s") ⟨none⟩
      (.Rows []) []).2 rfl).2 (by decide)⟩

/-- Claim C7: every failure (connection acquisition or statement execution)
is reported through `error` as a log line made of a fixed failure-class
prefix plus the underlying message, and the caller receives status 500 with
a plain-text body that is exactly that underlying message — the same content
the log line carries after its prefix. -/
theorem c7_error_reporting (pool : Except String Conn) (q : Query) (p : CallParams)
    (m : String) (logs : List String)
    (h : _query pool q (p._return == some true) = (.error m, logs)) :
    query pool q p = ((500, .text m), logs) ∧
    (logs = ["MySQL connection error" ++ ": " ++ m]
      ∨ logs = ["MySQL query error" ++ ": " ++ m]) ∧
    (∀ pfx e, (error pfx e).1 = pfx ++ ": " ++ (error pfx e).2
      ∧ (error pfx e).2 = e) := by
  refine ⟨?_, _query_error_log pool q (p._return == some true) m logs h,
    fun pfx e => ⟨rfl, rfl⟩⟩
  unfold query
  rw [h]

theorem c7_error_reporting_witness :
    query (.error "boom") (.Simple "SELECT 1") ⟨none⟩
      = ((500, .text "boom"), ["MySQL connection error" ++ ": " ++ "boom"]) :=
  (c7_error_reporting (.error "boom") (.Simple "SELECT 1") ⟨none⟩ "boom"
    ["MySQL connection error" ++ ": " ++ "boom"] rfl).1

/-- Claim C8: request discrimination is structural and deterministic — a
JSON string parses to `Simple`, a 2-element array `[string, array]` parses
to `Prepared` with the parameters in order, and no other shape parses to a
`Query` at all. -/
theorem c8_request_discrimination :
    (∀ s, parseQuery (.str s) = some (.Simple s)) ∧
    (∀ s ps, parseQuery (.arr [.str s, .arr ps]) = some (.Prepared s ps)) ∧
    (∀ j q, parseQuery j = some q →
      (∃ s, j = .str s ∧ q = .Simple s) ∨
      (∃ s ps, j = .arr [.str s, .arr ps] ∧ q = .Prepared s ps)) := by
  refine ⟨fun s => rfl, fun s ps => rfl, fun j q h => ?_⟩
  cases j with
  | null => simp [parseQuery, parseSimple, parsePrepared] at h
  | bool b => simp [parseQuery, parseSimple, parsePrepared] at h
  | num n => simp [parseQuery, parseSimple, parsePrepared] at h
  | obj fields => simp [parseQuery, parseSimple, parsePrepared] at h
  | str s =>
    simp [parseQuery, parseSimple] at h
    exact Or.inl ⟨s, rfl, h.symm⟩
  | arr elems =>
    simp [parseQuery, parseSimple] at h
    unfold parsePrepared at h
    split at h
    next s ps heq =>
      simp at heq
      simp at h
      exact Or.inr ⟨s, ps, by rw [heq], h.symm⟩
    next => simp at h

theorem c8_request_discrimination_witness :
    ((∃ s, serde_json.Value.str "SELECT 1" = .str s
        ∧ Query.Simple "SELECT 1" = .Simple s) ∨
     (∃ s ps, serde_json.Value.str "SELECT 1" = .arr [.str s, .arr ps]
        ∧ Query.Simple "SELECT 1" = .Prepared s ps)) ∧
    ((∃ s, serde_json.Value.arr [.str "SELECT ? ", .arr [.num (.PosInt 1)]] = .str s
        ∧ Query.Prepared "SELECT ? " [.num (.PosInt 1)] = .Simple s) ∨
     (∃ s ps, serde_json.Value.arr [.str "SELECT ? ", .arr [.num (.PosInt 1)]]
          = .arr [.str s, .arr ps]
        ∧ Query.Prepared "SELECT ? " [.num (.PosInt 1)] = .Prepared s ps)) :=
  ⟨c8_request_discrimination.2.2 (.str "SELECT 1") (.Simple "SELECT 1") rfl,
   c8_request_discrimination.2.2 (.arr [.str "SELECT ? ", .arr [.num (.PosInt 1)]])
     (.Prepared "SELECT ? " [.num (.PosInt 1)]) rfl⟩

/-- Claim C9, counterexample: the boolean half of the round-trip fails on
the code — `true` encodes to the relational integer `Int 1`, and re-reading
an `Int 1` column through the decoder yields the JSON number 1, which is not
the JSON boolean `true`. -/
theorem c9_roundtrip_counterexample :
    convertParam (.bool true) = .Int 1 ∧
    decodeCell (some (convertParam (.bool true))) = .num (.PosInt 1) ∧
    serde_json.Value.num (.PosInt 1) ≠ .bool true := by
  refine ⟨rfl, rfl, by simp⟩

/-- Claim C9, amended: encoding a JSON string and re-reading the resulting
byte-string column through the decoder restores the original string exactly;
encoding a JSON boolean and re-reading the resulting integer column yields
the JSON number 1 or 0 (the relational image of the boolean), not a JSON
boolean. -/
theorem c9_roundtrip_amended :
    (∀ s : String, decodeCell (some (convertParam (.str s))) = .str s) ∧
    (∀ b : Bool, decodeCell (some (convertParam (.bool b)))
      = .num (.PosInt (if b then 1 else 0))) := by
  constructor
  · intro s
    show serde_json.Value.str (utf8Lossy (utf8Encode s)) = .str s
    rw [utf8Lossy_utf8Encode]
  · intro b
    cases b <;> rfl

/-- Claim C10: under serde_json's number model `as_f64` succeeds on every
stored number, so the encoder always produces a relational `Double` for a
JSON number; the unsigned-integer fallback and the relational-null fallback
of the number arm are unreachable, as is any signed-integer encoding. -/
theorem c10_number_always_double (n : serde_json.Number) :
    (∃ f, n.as_f64 = some f ∧ convertParam (.num n) = .Double f) ∧
    (∀ u, convertParam (.num n) ≠ .UInt u) ∧
    (convertParam (.num n) ≠ .NULL) ∧
    (∀ i, convertParam (.num n) ≠ .Int i) := by
  cases n <;>
    simp [convertParam, serde_json.Number.as_f64, serde_json.Number.as_u64, numberChain]

end MysqlProxy
